import Mathlib

set_option maxRecDepth 100000

/-!
# A shallow embedding of the `rust-tsfile` writer (`src/lib.rs`)

This file embeds the TsFile writer of the repository in Lean 4 and proves
(or refutes) the specification claims about it.

Conventions of the embedding:
* Bytes are `Nat` values (always `< 256` by construction through `% 256`).
* The Rust `WriteWrapper<Vec<u8>>` positioned sink becomes a structure holding
  the running `position` and the emitted byte list; `write` always succeeds and
  appends the whole buffer, exactly as writing to a `Vec<u8>` does.
* `std::collections::HashMap` is modelled as an association list.  The list
  order stands for the map's iteration order, which in Rust is unspecified
  (seeded per process) — it is *not* the insertion order.
* Rust panics are modelled as `Except.error` carrying the panic message;
  `unwrap` on `None` likewise.
* Machine integers are `Nat`/`Int` with the `% 2^w` reductions written exactly
  where the source casts (`as u8`, `as u32`, `as i64`).
* The repository modules `utils`, `encoding`, `statistics` and `compression`
  are declared in `lib.rs` but their files are not under `src/`; the
  definitions taken from them are modelled from the spec and marked
  `Modelled from the spec:` in their doc comments.  Where the spec's words
  and the in-src regression test `write_file_test_4` disagree on those
  modules' byte output (the time encoding, the value encoding, the
  statistics layout), the test's expected byte vector — which is code under
  `src/` and therefore authoritative — fixes the model, and the doc comment
  points at the exact bytes that do so.
-/

namespace TsFile

/-- Big-endian byte list of width `w` for `n % 256^w` (the `to_be_bytes` of a
fixed-width unsigned integer). -/
def beBytes : Nat → Nat → List Nat
  | 0, _ => []
  | w + 1, n => beBytes w (n / 256) ++ [n % 256]

/-- Reinterpret a `u64` bit pattern as the Rust `as i64` cast does. -/
def i64ofU64 (n : Nat) : Int :=
  if n % 2 ^ 64 < 2 ^ 63 then ((n % 2 ^ 64 : Nat) : Int)
  else ((n % 2 ^ 64 : Nat) : Int) - 2 ^ 64

/-- `i64::to_be_bytes`: two's-complement big-endian encoding of an `i64`. -/
def int64BE (i : Int) : List Nat := beBytes 8 (i % 2 ^ 64).toNat

/-- `i32::to_be_bytes`: two's-complement big-endian encoding of an `i32`. -/
def int32BE (i : Int) : List Nat := beBytes 4 (i % 2 ^ 32).toNat

/-- The LEB128 emission loop, driven by structural fuel so that the kernel
can evaluate it; `fuel ≥ n` always suffices because the value shrinks by a
factor of 128 per step (`writeVarU32_eq` below recovers the fuel-free
recurrence). -/
def writeVarU32Go : Nat → Nat → List Nat
  | 0, n => [n]
  | fuel + 1, n =>
      if n < 128 then [n] else (n % 128 + 128) :: writeVarU32Go fuel (n / 128)

/-- Modelled from the spec: the repository's `utils::write_var_u32` is not
under `src/`.  Spec §4.2 (unsigned LEB128: 7 bits per byte, low-order first,
high bit set on all but the last byte); the in-src test `pre_write_var_int`
exhibits the same loop. -/
def writeVarU32 (n : Nat) : List Nat := writeVarU32Go n n

/-- Modelled from the spec: the repository's `utils::read_var_u32` is not
under `src/`.  Reads an unsigned LEB128 value from the front of a byte
stream (spec §4.2). -/
def readVarU32 : List Nat → Nat
  | [] => 0
  | b :: rest => if b < 128 then b else b % 128 + 128 * readVarU32 rest

/-- UTF-8 encoding of one character (the standard encoding, written out so the
kernel can evaluate it on literals). -/
def charUTF8 (c : Char) : List Nat :=
  let n := c.toNat
  if n < 0x80 then [n]
  else if n < 0x800 then [0xC0 + n / 64, 0x80 + n % 64]
  else if n < 0x10000 then [0xE0 + n / 4096, 0x80 + n / 64 % 64, 0x80 + n % 64]
  else [0xF0 + n / 262144, 0x80 + n / 4096 % 64, 0x80 + n / 64 % 64, 0x80 + n % 64]

/-- The UTF-8 bytes of a string (`str::as_bytes`). -/
def strBytes (s : String) : List Nat := (s.data.map charUTF8).flatten

/-- The bytes emitted by `write_str` (lib.rs 1093-1099): a single length byte
computed as `s.len() as u8 + 2` (wrapping `u8` arithmetic), followed by the
UTF-8 bytes of the string. -/
def strSer (s : String) : List Nat :=
  (((strBytes s).length % 256 + 2) % 256) :: strBytes s

/-- The positioned sink: `WriteWrapper<Vec<u8>>` (lib.rs 36-70).  Every write
appends the buffer to the backing vector and advances `position` by the number
of bytes written. -/
structure WriteWrapper where
  position : Nat
  writer : List Nat
deriving DecidableEq, Repr

def WriteWrapper.write (f : WriteWrapper) (buf : List Nat) : WriteWrapper :=
  { position := f.position + buf.length, writer := f.writer ++ buf }

/-- `WriteWrapper::new`: position 0, empty backing vector. -/
def WriteWrapper.new : WriteWrapper := ⟨0, []⟩

/-- Association-list lookup (model of `HashMap::get`). -/
def lookupAssoc {α : Type} : List (String × α) → String → Option α
  | [], _ => none
  | (k, v) :: rest, key => if k = key then some v else lookupAssoc rest key

/-- Model of `HashMap::contains_key`. -/
def containsKey {α : Type} (l : List (String × α)) (k : String) : Bool :=
  (lookupAssoc l k).isSome

/-- Replace the value stored under a key (model of mutating through
`HashMap::get_mut`); keys and order are unchanged. -/
def updateAssoc {α : Type} : List (String × α) → String → α → List (String × α)
  | [], _, _ => []
  | (k, v) :: rest, key, nv =>
      if k = key then (key, nv) :: rest else (k, v) :: updateAssoc rest key nv

/-- The value enum (lib.rs 26-30).  The payloads of `DOUBLE` and `FLOAT` are
Rust `f64`/`f32`; they are carried as Lean `Float` and never inspected by the
writer (only the constructor tag is type-checked). -/
inductive IoTDBValue where
  | DOUBLE (v : Float)
  | FLOAT (v : Float)
  | INT (v : Int)

/-- The data-type enum (lib.rs 72-83): only `INT32` exists; its tag is 1. -/
inductive TSDataType where
  | INT32
deriving DecidableEq, Repr

def TSDataType.serialize : TSDataType → Nat
  | .INT32 => 1

/-- Modelled from the spec: the repository module `compression` is not under
`src/`.  Spec §3: `UNCOMPRESSED = 0` is the only kind the core produces. -/
inductive CompressionType where
  | UNCOMPRESSED
deriving DecidableEq, Repr

def CompressionType.serialize : CompressionType → Nat
  | .UNCOMPRESSED => 0

/-- Modelled from the spec: the repository module `encoding` is not under
`src/`.  Spec §3: the core implements `PLAIN = 0`. -/
inductive TSEncoding where
  | PLAIN
deriving DecidableEq, Repr

def TSEncoding.serialize : TSEncoding → Nat
  | .PLAIN => 0

/-- Number of binary digits of `n` (0 for 0), by structural fuel (`fuel ≥ n`
always suffices). -/
def natBitWidthGo : Nat → Nat → Nat
  | 0, _ => 0
  | fuel + 1, n => if n = 0 then 0 else natBitWidthGo fuel (n / 2) + 1

def natBitWidth (n : Nat) : Nat := natBitWidthGo n n

/-- Pack each value into `width` bits, most-significant-first, and pad the
resulting bit stream with zero bits to a whole number of bytes (the bit
packing of the delta-binary time encoding). -/
def packBits (width : Nat) (vals : List Nat) : List Nat :=
  let totalBits := vals.length * width
  let byteCount := (totalBits + 7) / 8
  let acc := vals.foldl (fun a v => a * 2 ^ width + v % 2 ^ width) 0
  beBytes byteCount (acc * 2 ^ (byteCount * 8 - totalBits))

/-- Consecutive differences `v_{i+1} - v_i` starting from `prev`. -/
def pairwiseDeltas : Int → List Int → List Int
  | _, [] => []
  | prev, v :: rest => (v - prev) :: pairwiseDeltas v rest

/-- The zig-zag transform of spec §4.2: `(n << 1) ^ (n >> 31)` on `i32`. -/
def zigzagU32 (n : Int) : Nat :=
  if 0 ≤ n then (2 * n).toNat % 2 ^ 32 else (2 * (-n) - 1).toNat % 2 ^ 32

/-- Modelled from the spec: `encoding::TimeEncoder` is not under `src/`.
`encode` appends to an internal buffer (spec §4.3).  The byte layout of
`serialize` is fixed by the in-src regression vector of `write_file_test_4`
(lib.rs 1244-1255, bytes 22-47): a delta-binary block —
`int32 BE delta-count | int32 BE bit-width | int64 BE min-delta |
int64 BE first-value | packed (delta - min-delta) values` — with min-delta
`2^63 - 1` (i64 max) when no delta exists, and nothing at all for an empty
encoder.  (Spec §4.3's words say plain big-endian int64 here; the in-src
test vector, which is authoritative, shows this delta encoding instead.) -/
structure TimeEncoder where
  values : List Int
deriving DecidableEq, Repr

def TimeEncoder.new : TimeEncoder := ⟨[]⟩

def TimeEncoder.encode (e : TimeEncoder) (ts : Int) : TimeEncoder :=
  ⟨e.values ++ [ts]⟩

def TimeEncoder.serializeBytes (e : TimeEncoder) : List Nat :=
  match e.values with
  | [] => []
  | first :: rest =>
      let deltas := pairwiseDeltas first rest
      let minDelta := deltas.foldl min (2 ^ 63 - 1)
      let reduced := deltas.map (fun d => (d - minDelta).toNat)
      let width := (reduced.map natBitWidth).foldl max 0
      int32BE (Int.ofNat deltas.length) ++ int32BE (Int.ofNat width) ++
        int64BE minDelta ++ int64BE first ++ packBits width reduced

/-- Modelled from the spec: `encoding::PlainInt32Encoder` is not under
`src/`.  `encode` appends to an internal buffer (spec §4.3).  The byte
layout of `serialize` is fixed by the in-src regression vector of
`write_file_test_4` (bytes 48-50: values 13, 14, 15 emitted as `1A 1C 1E`):
each value is zig-zag transformed (spec §4.2) and written as an unsigned
varint.  (Spec §4.3's words say big-endian fixed-width here; the in-src
test vector, which is authoritative, shows the varint form instead.) -/
structure PlainInt32Encoder where
  values : List Int
deriving DecidableEq, Repr

def PlainInt32Encoder.new : PlainInt32Encoder := ⟨[]⟩

def PlainInt32Encoder.encode (e : PlainInt32Encoder) (v : Int) : PlainInt32Encoder :=
  ⟨e.values ++ [v]⟩

def PlainInt32Encoder.serializeBytes (e : PlainInt32Encoder) : List Nat :=
  (e.values.map (fun v => writeVarU32 (zigzagU32 v))).flatten

/-- Modelled from the spec: `statistics::StatisticsStruct<i32>` is not under
`src/`.  Spec §4.4 lists the fields; `sum_value` is carried as an exact
integer sum (the in-src regression vector serializes the sum of an INT32
column as an int64, and the writer only ever adds `i32` samples to it). -/
structure StatisticsStruct where
  count : Int
  startTime : Int
  endTime : Int
  minValue : Int
  maxValue : Int
  firstValue : Int
  lastValue : Int
  sumValue : Int
deriving DecidableEq, Repr

/-- Modelled from the spec: a fresh statistics record.  Sentinels are chosen
so that the first `update`/`merge` wins every comparison (spec §4.4 observes
fields only after the first update). -/
def StatisticsStruct.new : StatisticsStruct :=
  { count := 0, startTime := 2 ^ 63 - 1, endTime := -(2 ^ 63)
    minValue := 2 ^ 63 - 1, maxValue := -(2 ^ 63)
    firstValue := 0, lastValue := 0, sumValue := 0 }

/-- Modelled from the spec (§4.4): set first/start on `count == 0`; always
update last and end; min/max by comparison; add to sum; increment count. -/
def StatisticsStruct.update (s : StatisticsStruct) (ts : Int) (v : Int) :
    StatisticsStruct :=
  let s := if s.count = 0 then { s with firstValue := v, startTime := ts } else s
  { s with lastValue := v, endTime := ts
           minValue := min s.minValue v, maxValue := max s.maxValue v
           sumValue := s.sumValue + v, count := s.count + 1 }

/-- Modelled from the spec (§4.4): counts add; first/start from the
earlier-start operand; last/end from the later-end operand; min/max pairwise;
sums add. -/
def StatisticsStruct.merge (s o : StatisticsStruct) : StatisticsStruct :=
  { count := s.count + o.count
    startTime := min s.startTime o.startTime
    endTime := max s.endTime o.endTime
    minValue := min s.minValue o.minValue
    maxValue := max s.maxValue o.maxValue
    firstValue := if o.startTime < s.startTime then o.firstValue else s.firstValue
    lastValue := if o.endTime > s.endTime then o.lastValue else s.lastValue
    sumValue := s.sumValue + o.sumValue }

/-- Modelled from the spec (§4.4 field list): the statistics serialization
layout, with the byte forms fixed by the in-src regression vector of
`write_file_test_4` (bytes 58-98: count 3 as a varint, start/end as int64
BE, min/max/first/last as int32 BE, and the sum 42 as int64 BE — the sum of
an INT32 column is an integer, not the float64 of spec §4.4's words). -/
def StatisticsStruct.serializeBytes (s : StatisticsStruct) : List Nat :=
  writeVarU32 (s.count.toNat % 2 ^ 32) ++
    int64BE s.startTime ++ int64BE s.endTime ++
    int32BE s.minValue ++ int32BE s.maxValue ++
    int32BE s.firstValue ++ int32BE s.lastValue ++
    int64BE s.sumValue

/-- `PageWriter` (lib.rs 127-175): one time encoder, one value encoder, and
the page body buffer. -/
structure PageWriter where
  timeEncoder : TimeEncoder
  valueEncoder : PlainInt32Encoder
  buffer : List Nat
deriving DecidableEq, Repr

def PageWriter.new : PageWriter :=
  { timeEncoder := TimeEncoder.new, valueEncoder := PlainInt32Encoder.new
    buffer := [] }

/-- `PageWriter::write` (lib.rs 161-165): forward to both encoders. -/
def PageWriter.write (pw : PageWriter) (timestamp : Int) (value : Int) :
    PageWriter :=
  { pw with timeEncoder := pw.timeEncoder.encode timestamp
            valueEncoder := pw.valueEncoder.encode value }

/-- `PageWriter::prepare_buffer` (lib.rs 167-174): append
`varuint(time-bytes-length) | time-bytes | value-bytes` to the page buffer. -/
def PageWriter.prepareBuffer (pw : PageWriter) : PageWriter :=
  let timeBuffer := pw.timeEncoder.serializeBytes
  { pw with
      buffer := pw.buffer ++ writeVarU32 (timeBuffer.length % 2 ^ 32) ++
        timeBuffer ++ pw.valueEncoder.serializeBytes }

/-- `ChunkMetadata` (lib.rs 362-370). -/
structure ChunkMetadata where
  measurementId : String
  dataType : TSDataType
  mask : Nat
  offsetOfChunkHeader : Int
  statistics : StatisticsStruct
deriving DecidableEq, Repr

/-- `ChunkMetadata::serialize` (lib.rs 385-397): the chunk-header offset as
int64 BE, then the statistics when requested. -/
def ChunkMetadata.serializeBytes (m : ChunkMetadata) (serializeStatistics : Bool) :
    List Nat :=
  int64BE m.offsetOfChunkHeader ++
    (if serializeStatistics then m.statistics.serializeBytes else [])

/-- `ChunkWriter<i32>` (lib.rs 185-194). -/
structure ChunkWriter where
  dataType : TSDataType
  compression : CompressionType
  encoding : TSEncoding
  measurementId : String
  currentPageWriter : Option PageWriter
  offsetOfChunkHeader : Option Nat
  statistics : StatisticsStruct
deriving DecidableEq, Repr

/-- `ChunkWriter::new` (lib.rs 291-313). -/
def ChunkWriter.new (measurementId : String) (dataType : TSDataType)
    (compression : CompressionType) (encoding : TSEncoding) : ChunkWriter :=
  { dataType, compression, encoding, measurementId
    currentPageWriter := none, offsetOfChunkHeader := none
    statistics := StatisticsStruct.new }

/-- `ChunkWriter::write` (lib.rs 197-218).  Rust takes `&mut self` and
returns a `Result`; the pair returned here is (result, state after the
call).  A non-`INT` value returns `Err("wrong type!")` before any field is
touched; otherwise the statistics are updated, a page is created on first
use, and the sample is forwarded to the page. -/
def ChunkWriter.write (cw : ChunkWriter) (timestamp : Int) (value : IoTDBValue) :
    Except String Unit × ChunkWriter :=
  match value with
  | .INT v =>
      let cw := { cw with statistics := cw.statistics.update timestamp v }
      let pageWriter :=
        match cw.currentPageWriter with
        | none => PageWriter.new
        | some p => p
      (Except.ok (), { cw with currentPageWriter := some (pageWriter.write timestamp v) })
  | _ => (Except.error "wrong type!", cw)

/-- The page region of a chunk: `varuint(U) | varuint(C) | page-body`, where
the source computes `U = C = page_buffer.len() as u8` (lib.rs 222-248). -/
def pageRegionBytes (pw : PageWriter) : List Nat :=
  let prepared := pw.prepareBuffer
  let bufferSize := prepared.buffer.length % 256
  writeVarU32 bufferSize ++ writeVarU32 bufferSize ++ prepared.buffer

/-- All bytes a non-empty chunk emits (lib.rs 250-271): marker `0x05`,
`write_str(measurement_id)`, `varuint(page_region_length)`, the three tag
bytes, then the page region. -/
def chunkBytes (cw : ChunkWriter) (pw : PageWriter) : List Nat :=
  [5] ++ strSer cw.measurementId ++
    writeVarU32 ((pageRegionBytes pw).length % 2 ^ 32) ++
    [cw.dataType.serialize] ++ [cw.compression.serialize] ++
    [cw.encoding.serialize] ++ pageRegionBytes pw

/-- `ChunkWriter::serialize` (lib.rs 220-272).  The source computes the two
varuint size prefixes before matching on the page writer; with no page it
panics (`"Unable to flush without page writer!"`) before anything reaches the
sink, so the match is hoisted here.  With a page: the chunk-header offset is
captured from `file.get_position()` just before the `0x05` marker byte is
written. -/
def ChunkWriter.serialize (cw : ChunkWriter) (file : WriteWrapper) :
    Except String (WriteWrapper × ChunkWriter) :=
  match cw.currentPageWriter with
  | none => Except.error "Unable to flush without page writer!"
  | some pw =>
      let prepared := pw.prepareBuffer
      let bufferSize := prepared.buffer.length % 256
      let uncompressedBytes := bufferSize
      let compressedBytes := uncompressedBytes
      let pageBuffer :=
        writeVarU32 uncompressedBytes ++ writeVarU32 compressedBytes ++
          prepared.buffer
      let offset := file.position
      let file := file.write [5]
      let file := file.write (strSer cw.measurementId)
      let file := file.write (writeVarU32 (pageBuffer.length % 2 ^ 32))
      let file := file.write [cw.dataType.serialize]
      let file := file.write [cw.compression.serialize]
      let file := file.write [cw.encoding.serialize]
      let file := file.write pageBuffer
      Except.ok (file, { cw with currentPageWriter := some prepared
                                 offsetOfChunkHeader := some offset })

/-- `ChunkWriter::get_metadata` (lib.rs 274-288).  Rust panics
(`"get_metadata called before offset is defined"`) when the chunk-header
offset is still `None`; the panic is modelled as `none`.  The stored `u64`
offset is cast `as i64`. -/
def ChunkWriter.getMetadata (cw : ChunkWriter) : Option ChunkMetadata :=
  match cw.offsetOfChunkHeader with
  | none => none
  | some offset =>
      some { measurementId := cw.measurementId, dataType := cw.dataType
             mask := 0, offsetOfChunkHeader := i64ofU64 offset
             statistics := cw.statistics }

/-- `MeasurementSchema` (lib.rs 85-90). -/
structure MeasurementSchema where
  measurementId : String
  dataType : TSDataType
  encoding : TSEncoding
  compression : CompressionType
deriving DecidableEq, Repr

/-- `MeasurementGroup` (lib.rs 119-121); the `HashMap` is an association
list whose order models the map's iteration order. -/
structure MeasurementGroup where
  measurementSchemas : List (String × MeasurementSchema)
deriving DecidableEq, Repr

/-- `Schema` (lib.rs 123-125). -/
structure Schema where
  measurementGroups : List (String × MeasurementGroup)
deriving DecidableEq, Repr

/-- `ChunkGroupMetadata` (lib.rs 399-402).  `Path` is a plain string wrapper
in the source and is carried as `String` here. -/
structure ChunkGroupMetadata where
  deviceId : String
  chunkMetadata : List ChunkMetadata
deriving DecidableEq, Repr

/-- `GroupWriter` (lib.rs 315-319). -/
structure GroupWriter where
  path : String
  measurementGroup : MeasurementGroup
  chunkWriters : List (String × ChunkWriter)
deriving DecidableEq, Repr

/-- `GroupWriter::write` (lib.rs 322-335).  An unknown measurement id yields
`Err("Unknown measurement id")`; otherwise the sample is forwarded to the
chunk writer — note that the source *discards* the chunk writer's result and
returns `Ok(())`. -/
def GroupWriter.write (gw : GroupWriter) (measurementId : String)
    (timestamp : Int) (value : IoTDBValue) : Except String Unit × GroupWriter :=
  match lookupAssoc gw.chunkWriters measurementId with
  | some cw =>
      let cw := (cw.write timestamp value).2
      (Except.ok (), { gw with chunkWriters := updateAssoc gw.chunkWriters measurementId cw })
  | none => (Except.error "Unknown measurement id", gw)

/-- The `for (_, chunk_writer) in self.chunk_writers.iter_mut()` loop of
`GroupWriter::serialize` (lib.rs 343-345), threading the sink and the
updated chunk writers; a chunk panic propagates. -/
def serializeChunkList :
    List (String × ChunkWriter) → WriteWrapper →
      Except String (WriteWrapper × List (String × ChunkWriter))
  | [], file => Except.ok (file, [])
  | (k, cw) :: rest, file =>
      match cw.serialize file with
      | Except.error e => Except.error e
      | Except.ok (file, cw) =>
          match serializeChunkList rest file with
          | Except.error e => Except.error e
          | Except.ok (file, rest) => Except.ok (file, (k, cw) :: rest)

/-- `GroupWriter::serialize` (lib.rs 337-348): marker `0x00`, the device path
via `write_str`, then every chunk in iteration order. -/
def GroupWriter.serialize (gw : GroupWriter) (file : WriteWrapper) :
    Except String (WriteWrapper × GroupWriter) :=
  let file := file.write [0]
  let file := file.write (strSer gw.path)
  match serializeChunkList gw.chunkWriters file with
  | Except.error e => Except.error e
  | Except.ok (file, cws) => Except.ok (file, { gw with chunkWriters := cws })

/-- `GroupWriter::get_metadata` (lib.rs 350-359); a `get_metadata` panic in
any chunk writer propagates (`none`). -/
def GroupWriter.getMetadata (gw : GroupWriter) : Option ChunkGroupMetadata :=
  (gw.chunkWriters.mapM (fun p => ChunkWriter.getMetadata p.2)).map
    (fun l => { deviceId := gw.path, chunkMetadata := l })

/-- `MetadataIndexNodeType` (lib.rs 413-418). -/
inductive MetadataIndexNodeType where
  | LeafMeasurement
  | InternalMeasurement
  | LeafDevice
deriving DecidableEq, Repr

/-- `MetadataIndexNodeType::serialize` (lib.rs 420-448). -/
def MetadataIndexNodeType.serialize : MetadataIndexNodeType → Nat
  | .LeafMeasurement => 3
  | .InternalMeasurement => 2
  | .LeafDevice => 1

/-- `MetadataIndexEntry` (lib.rs 452-456); `offset` is a `usize`. -/
structure MetadataIndexEntry where
  name : String
  offset : Nat
deriving DecidableEq, Repr

/-- `MetadataIndexEntry::serialize` (lib.rs 458-469): `write_str(name)` then
the offset as 8 big-endian bytes (`usize::to_be_bytes`). -/
def MetadataIndexEntry.serializeBytes (e : MetadataIndexEntry) : List Nat :=
  strSer e.name ++ beBytes 8 e.offset

/-- `MetadataIndexNode` (lib.rs 471-476). -/
structure MetadataIndexNode where
  children : List MetadataIndexEntry
  endOffset : Nat
  nodeType : MetadataIndexNodeType
deriving DecidableEq, Repr

/-- `MetadataIndexNode::serialize` (lib.rs 478-499). -/
def MetadataIndexNode.serializeBytes (n : MetadataIndexNode) : List Nat :=
  writeVarU32 (n.children.length % 2 ^ 32) ++
    (n.children.map MetadataIndexEntry.serializeBytes).flatten ++
    beBytes 8 n.endOffset ++ [n.nodeType.serialize]

/-- `MetadataIndexNode::new` (lib.rs 501-508). -/
def MetadataIndexNode.new (nodeType : MetadataIndexNodeType) : MetadataIndexNode :=
  { children := [], endOffset := 0, nodeType }

/-- `MetadataIndexNode::is_full` (lib.rs 724-726); the max degree is the
constant 256 (lib.rs 24). -/
def MetadataIndexNode.isFull (n : MetadataIndexNode) : Bool :=
  n.children.length ≥ 256

/-- `TimeSeriesMetadata<T>` (lib.rs 751-758). -/
structure TimeSeriesMetadata where
  timeSeriesMetadataType : Nat
  chunkMetaDataListDataSize : Nat
  measurementId : String
  dataType : TSDataType
  statistics : StatisticsStruct
  buffer : List Nat
deriving DecidableEq, Repr

/-- `TimeSeriesMetadata::serialize` (lib.rs 734-748): type byte,
`write_str(measurement_id)`, data-type tag, `varuint` of the chunk-metadata
list size, the statistics, then the buffered chunk-metadata bytes. -/
def TimeSeriesMetadata.serializeBytes (t : TimeSeriesMetadata) : List Nat :=
  [t.timeSeriesMetadataType % 256] ++ strSer t.measurementId ++
    [t.dataType.serialize] ++ writeVarU32 (t.chunkMetaDataListDataSize % 2 ^ 32) ++
    t.statistics.serializeBytes ++ t.buffer

/-- One iteration of the inner `for` of `generate_root_node` (lib.rs
553-582): pop the queue's front, read its first child's name (panicking when
it has none), push the current node to the queue if it is full, then record
an entry `(name, position)` in the current node.  The popped node is *not*
serialized by the source. -/
def generateRootPops :
    Nat → List MetadataIndexNode → MetadataIndexNode → WriteWrapper →
      Except String (List MetadataIndexNode × MetadataIndexNode)
  | 0, queue, current, _ => Except.ok (queue, current)
  | n + 1, queue, current, file =>
      match queue with
      | [] => Except.error "called Option::unwrap on a None value"
      | node :: rest =>
          match node.children with
          | [] => Except.error "This should not happen!"
          | c0 :: _ =>
              let (queue, current) :=
                if current.isFull then
                  (rest ++ [{ current with endOffset := file.position }],
                   { current with endOffset := file.position })
                else (rest, current)
              let current :=
                { current with children := current.children ++ [⟨c0.name, file.position⟩] }
              generateRootPops n queue current file

/-- The `while queue_size != 1` loop of `generate_root_node` (lib.rs
549-592), driven by explicit fuel (the source loop terminates because every
pass shrinks the queue; fuel exhaustion is reported as an error and never
happens at the call sites of this development). -/
def generateRootLoop :
    Nat → List MetadataIndexNode → WriteWrapper → MetadataIndexNodeType →
      Except String MetadataIndexNode
  | 0, _, _, _ => Except.error "generate_root_node fuel exhausted"
  | fuel + 1, queue, file, nodeType =>
      if queue.length = 1 then
        match queue with
        | [n] => Except.ok n
        | _ => Except.error "called Option::unwrap on a None value"
      else
        match generateRootPops queue.length queue (MetadataIndexNode.new nodeType) file with
        | Except.error e => Except.error e
        | Except.ok (queue, current) =>
            generateRootLoop fuel
              (queue ++ [{ current with endOffset := file.position }]) file nodeType

/-- `MetadataIndexNode::generate_root_node` (lib.rs 522-593). -/
def generateRootNode (queue : List MetadataIndexNode) (file : WriteWrapper)
    (nodeType : MetadataIndexNodeType) : Except String MetadataIndexNode :=
  generateRootLoop (queue.length + 2) queue file nodeType

/-- The per-device leaf-building loop of `construct_metadata_index` (lib.rs
613-649): the index-divisible-by-256 pre-check, the duplicated fullness
check, the entry recording `(measurement_id, position)`, and the timeseries
metadata serialization to the sink. -/
def deviceLeafLoop :
    List TimeSeriesMetadata → Nat → List MetadataIndexNode → MetadataIndexNode →
      WriteWrapper → List MetadataIndexNode × MetadataIndexNode × WriteWrapper
  | [], _, queue, current, file => (queue, current, file)
  | t :: rest, i, queue, current, file =>
      let (queue, current) :=
        if i % 256 = 0 then
          if current.isFull then
            (queue ++ [{ current with endOffset := file.position }],
             MetadataIndexNode.new .LeafMeasurement)
          else (queue, current)
        else (queue, current)
      let (queue, current) :=
        if current.isFull then
          (queue ++ [{ current with endOffset := file.position }],
           MetadataIndexNode.new .LeafMeasurement)
        else (queue, current)
      let current :=
        { current with children := current.children ++ [⟨t.measurementId, file.position⟩] }
      let file := file.write t.serializeBytes
      deviceLeafLoop rest (i + 1) queue current file

/-- The per-device body of `construct_metadata_index` (lib.rs 602-667):
empty metadata lists are skipped; otherwise the leaf loop runs, the current
node is flushed to the queue, and `generate_root_node` reduces the queue to
the device's root. -/
def constructDeviceRoots :
    List (String × List TimeSeriesMetadata) → WriteWrapper →
      Except String (List (String × MetadataIndexNode) × WriteWrapper)
  | [], file => Except.ok ([], file)
  | (device, listMetadata) :: rest, file =>
      if listMetadata.isEmpty then constructDeviceRoots rest file
      else
        let (queue, current, file) :=
          deviceLeafLoop listMetadata 0 [] (MetadataIndexNode.new .LeafMeasurement) file
        let queue := queue ++ [{ current with endOffset := file.position }]
        match generateRootNode queue file .InternalMeasurement with
        | Except.error e => Except.error e
        | Except.ok rootNode =>
            match constructDeviceRoots rest file with
            | Except.error e => Except.error e
            | Except.ok (map, file) => Except.ok ((device, rootNode) :: map, file)

/-- The device-level tail of `construct_metadata_index` (lib.rs 669-683):
with at most 256 devices a single `LeafDevice` node collects
`(device, position)` entries while each device root is serialized; more
devices hit the source's `panic!("This is not yet implemented!")`. -/
def constructDeviceLevel :
    List (String × MetadataIndexNode) → MetadataIndexNode → WriteWrapper →
      MetadataIndexNode × WriteWrapper
  | [], node, file => (node, file)
  | (s, value) :: rest, node, file =>
      let node := { node with children := node.children ++ [⟨s, file.position⟩] }
      let file := file.write value.serializeBytes
      constructDeviceLevel rest node file

/-- `MetadataIndexNode::construct_metadata_index` (lib.rs 595-723). -/
def constructMetadataIndex (deviceTimeseriesMetadataMap : List (String × List TimeSeriesMetadata))
    (file : WriteWrapper) : Except String (MetadataIndexNode × WriteWrapper) :=
  match constructDeviceRoots deviceTimeseriesMetadataMap file with
  | Except.error e => Except.error e
  | Except.ok (deviceMetadataIndexMap, file) =>
      if deviceMetadataIndexMap.length ≤ 256 then
        let (node, file) :=
          constructDeviceLevel deviceMetadataIndexMap (MetadataIndexNode.new .LeafDevice) file
        let node := { node with endOffset := file.position }
        Except.ok (node, file)
      else Except.error "This is not yet implemented!"

/-- `BloomFilter` (lib.rs 772): a field-less struct. -/
structure BloomFilter
deriving DecidableEq, Repr

/-- `BloomFilter::build` (lib.rs 774-778): the paths argument is ignored. -/
def BloomFilter.build (paths : List String) : BloomFilter := {}

/-- The hardcoded 35 bytes that `BloomFilter::serialize` always emits
(lib.rs 780-787). -/
def bloomFakeBytes : List Nat :=
  [0x1F, 0x04, 0x00, 0x00, 0x00, 0x00, 0x00, 0x00, 0x00, 0x00, 0x00, 0x00,
   0x00, 0x00, 0x00, 0x01, 0x00, 0x01, 0x00, 0x00, 0x08, 0x00, 0x00, 0x00,
   0x00, 0x00, 0x00, 0x00, 0x00, 0x00, 0x00, 0x02, 0x80, 0x02, 0x05]

/-- `BloomFilter::serialize` (lib.rs 780-787). -/
def BloomFilter.serializeBytes (b : BloomFilter) : List Nat := bloomFakeBytes

/-- `TsFileMetadata` (lib.rs 789-801). -/
structure TsFileMetadata where
  metadataIndex : Option MetadataIndexNode
  metaOffset : Nat
deriving DecidableEq, Repr

/-- `TsFileMetadata::serialize` (lib.rs 803-819): the root index node (or
four zero bytes), then `meta_offset` as `u64` BE. -/
def TsFileMetadata.serializeBytes (t : TsFileMetadata) : List Nat :=
  (match t.metadataIndex with
   | some index => index.serializeBytes
   | none => [0, 0, 0, 0]) ++ beBytes 8 t.metaOffset

/-- `TsFileWriter` (lib.rs 821-826). -/
structure TsFileWriter where
  filename : String
  groupWriters : List (String × GroupWriter)
  chunkGroupMetadata : List ChunkGroupMetadata
  timeseriesMetadataMap : List (String × List TimeSeriesMetadata)
deriving DecidableEq, Repr

/-- `TsFileWriter::new` (lib.rs 982-1020): one `GroupWriter` per schema
device, one `ChunkWriter` per measurement. -/
def TsFileWriter.new (filename : String) (schema : Schema) : TsFileWriter :=
  { filename
    groupWriters :=
      schema.measurementGroups.map (fun (path, v) =>
        (path,
         { path
           measurementGroup := v
           chunkWriters :=
             v.measurementSchemas.map (fun (measurementId, ms) =>
               (measurementId,
                ChunkWriter.new measurementId ms.dataType ms.compression ms.encoding)) }))
    chunkGroupMetadata := []
    timeseriesMetadataMap := [] }

/-- `TsFileWriter::write` (lib.rs 829-844). -/
def TsFileWriter.write (w : TsFileWriter) (device : String)
    (measurementId : String) (timestamp : Int) (value : IoTDBValue) :
    Except String Unit × TsFileWriter :=
  match lookupAssoc w.groupWriters device with
  | some gw =>
      let (r, gw) := gw.write measurementId timestamp value
      (r, { w with groupWriters := updateAssoc w.groupWriters device gw })
  | none => (Except.error "Unable to find group writer", w)

/-- The first half of the chunk-metadata-map loop of `_flush` (lib.rs
925-942): insert an empty list if the `device.measurement` path is new, then
push the chunk metadata. -/
def insertChunkMetadata (map : List (String × List ChunkMetadata))
    (path : String) (cm : ChunkMetadata) : List (String × List ChunkMetadata) :=
  let map := if containsKey map path then map else map ++ [(path, [])]
  updateAssoc map path (((lookupAssoc map path).getD []) ++ [cm])

/-- The chunk metadata of one group, keyed into the map under
`format!("{}.{}", device_id, measurement_id)` (lib.rs 926-941). -/
def addGroupChunkMetadata (map : List (String × List ChunkMetadata))
    (deviceId : String) : List ChunkMetadata → List (String × List ChunkMetadata)
  | [] => map
  | cm :: rest =>
      addGroupChunkMetadata
        (insertChunkMetadata map (deviceId ++ "." ++ cm.measurementId) cm) deviceId rest

/-- The full chunk-metadata-map construction of `_flush` (lib.rs 923-942). -/
def buildChunkMetadataMapFrom (map : List (String × List ChunkMetadata)) :
    List ChunkGroupMetadata → List (String × List ChunkMetadata)
  | [] => map
  | g :: rest =>
      buildChunkMetadataMapFrom (addGroupChunkMetadata map g.deviceId g.chunkMetadata) rest

def buildChunkMetadataMap (groups : List ChunkGroupMetadata) :
    List (String × List ChunkMetadata) :=
  buildChunkMetadataMapFrom [] groups

/-- The `split(".")[0]` device-key computation of `flush_metadata_index`
(lib.rs 881-882): the prefix of the combined `device.measurement` path before
its first `'.'`. -/
def splitHead (p : String) : String :=
  String.mk (p.data.takeWhile (fun c => !(c == '.')))

/-- The per-path body of `flush_metadata_index` (lib.rs 851-878): the
timeseries metadata record synthesized from one path's chunk-metadata list
(`None` models the `unwrap` panic on an empty list). -/
def timeseriesMetadataOf (metadata : List ChunkMetadata) : Option TimeSeriesMetadata :=
  match metadata with
  | [] => none
  | m0 :: _ =>
      let dataType := m0.dataType
      let serializeStatistic := decide (metadata.length > 1)
      let matching := metadata.filter (fun m => m.dataType = dataType)
      let buffer := (matching.map (fun m => m.serializeBytes serializeStatistic)).flatten
      let statistics :=
        matching.foldl (fun s m => s.merge m.statistics) StatisticsStruct.new
      some { timeSeriesMetadataType := Nat.lor (if serializeStatistic then 1 else 0) m0.mask
             chunkMetaDataListDataSize := buffer.length
             measurementId := m0.measurementId
             dataType
             statistics
             buffer }

/-- Filing one timeseries metadata record into `timeseries_metadata_map`
under the computed device id (lib.rs 884-892). -/
def pushTimeseriesMetadata (map : List (String × List TimeSeriesMetadata))
    (deviceId : String) (t : TimeSeriesMetadata) :
    List (String × List TimeSeriesMetadata) :=
  let map := if containsKey map deviceId then map else map ++ [(deviceId, [])]
  updateAssoc map deviceId (((lookupAssoc map deviceId).getD []) ++ [t])

/-- The grouping loop of `flush_metadata_index` (lib.rs 851-893): every
`device.measurement` path of the chunk-metadata map contributes one
timeseries metadata record, filed under `path.split(".")[0]`. -/
def groupTimeseriesMetadata (map : List (String × List TimeSeriesMetadata)) :
    List (String × List ChunkMetadata) →
      Except String (List (String × List TimeSeriesMetadata))
  | [] => Except.ok map
  | (path, metadata) :: rest =>
      match timeseriesMetadataOf metadata with
      | none => Except.error "called Option::unwrap on a None value"
      | some t => groupTimeseriesMetadata (pushTimeseriesMetadata map (splitHead path) t) rest

/-- `TsFileWriter::flush_metadata_index` (lib.rs 846-896). -/
def TsFileWriter.flushMetadataIndex (w : TsFileWriter) (file : WriteWrapper)
    (chunkMetadataList : List (String × List ChunkMetadata)) :
    Except String (TsFileWriter × MetadataIndexNode × WriteWrapper) :=
  match groupTimeseriesMetadata w.timeseriesMetadataMap chunkMetadataList with
  | Except.error e => Except.error e
  | Except.ok tsMap =>
      let w := { w with timeseriesMetadataMap := tsMap }
      match constructMetadataIndex w.timeseriesMetadataMap file with
      | Except.error e => Except.error e
      | Except.ok (node, file) => Except.ok (w, node, file)

/-- The `for (_, group_writer) in self.group_writers.iter_mut()` loop of
`_flush` (lib.rs 911-914). -/
def serializeGroupList :
    List (String × GroupWriter) → WriteWrapper →
      Except String (WriteWrapper × List (String × GroupWriter))
  | [], file => Except.ok (file, [])
  | (k, gw) :: rest, file =>
      match gw.serialize file with
      | Except.error e => Except.error e
      | Except.ok (file, gw) =>
          match serializeGroupList rest file with
          | Except.error e => Except.error e
          | Except.ok (file, rest) => Except.ok (file, (k, gw) :: rest)

/-- `TsFileWriter::_flush` (lib.rs 899-974): magic + version, the chunk
groups, the chunk-metadata map, marker `0x02`, the metadata index, the
footer (`TsFileMetadata`), the bloom filter, the footer length as `u32` BE,
and the trailing magic. -/
def TsFileWriter.flushFile (w : TsFileWriter) (file : WriteWrapper) :
    Except String (TsFileWriter × WriteWrapper) :=
  let file := file.write (strBytes "TsFile")
  let file := file.write [3]
  match serializeGroupList w.groupWriters file with
  | Except.error e => Except.error e
  | Except.ok (file, gws) =>
      let w := { w with groupWriters := gws }
      match w.groupWriters.mapM (fun p => p.2.getMetadata) with
      | none => Except.error "get_metadata called before offset is defined"
      | some groupMetadata =>
          let w := { w with chunkGroupMetadata := groupMetadata }
          let chunkMetadataMap := buildChunkMetadataMap w.chunkGroupMetadata
          let metaOffset := file.position
          let file := file.write [2]
          match w.flushMetadataIndex file chunkMetadataMap with
          | Except.error e => Except.error e
          | Except.ok (w, metadataIndexNode, file) =>
              let tsFileMetadata : TsFileMetadata :=
                { metadataIndex := some metadataIndexNode, metaOffset }
              let footerIndex := file.position
              let file := file.write tsFileMetadata.serializeBytes
              let paths := chunkMetadataMap.map Prod.fst
              let bloomFilter := BloomFilter.build paths
              let file := file.write bloomFilter.serializeBytes
              let sizeOfFooter := (file.position - footerIndex) % 2 ^ 32
              let file := file.write (beBytes 4 sizeOfFooter)
              let file := file.write (strBytes "TsFile")
              Except.ok (w, file)

/-! ## Concrete fixtures used by witnesses and counterexamples -/

/-- Measurement schema `s1: INT32/PLAIN/UNCOMPRESSED` of the scenarios. -/
def msS1 : MeasurementSchema := ⟨"s1", .INT32, .PLAIN, .UNCOMPRESSED⟩

/-- Measurement schema `s2: INT32/PLAIN/UNCOMPRESSED`. -/
def msS2 : MeasurementSchema := ⟨"s2", .INT32, .PLAIN, .UNCOMPRESSED⟩

/-- Scenario schema: device `d1` with measurement `s1`. -/
def schemaD1S1 : Schema := ⟨[("d1", ⟨[("s1", msS1)]⟩)]⟩

/-- Scenario E writer state: fresh writer over `schemaD1S1` after the failed
write `write("d1","s1", 0, FLOAT(1.0))`. -/
def writerScenarioE : TsFileWriter :=
  ((TsFileWriter.new "data3.tsfile" schemaD1S1).write "d1" "s1" 0
    (IoTDBValue.FLOAT 1.0)).2

/-- A chunk writer for `s1` after one successful write `(1, INT(13))`. -/
def cwWritten : ChunkWriter :=
  ((ChunkWriter.new "s1" .INT32 .UNCOMPRESSED .PLAIN).write 1 (IoTDBValue.INT 13)).2

/-- The page writer `cwWritten` holds. -/
def pwWritten : PageWriter := PageWriter.new.write 1 13

/-- Two-measurement device `d1`, with the measurement map in the iteration
order `s1, s2`. -/
def schemaOrder1 : Schema := ⟨[("d1", ⟨[("s1", msS1), ("s2", msS2)]⟩)]⟩

/-- The same device and measurement set as `schemaOrder1`, with the map in
the iteration order `s2, s1` — a second possible `HashMap` iteration order
for the identical logical schema. -/
def schemaOrder2 : Schema := ⟨[("d1", ⟨[("s2", msS2), ("s1", msS1)]⟩)]⟩

/-- Writer over `schemaOrder1` after writing `(1, INT(13))` to `s1` and to
`s2`. -/
def writerOrder1 : TsFileWriter :=
  ((((TsFileWriter.new "f" schemaOrder1).write "d1" "s1" 1 (IoTDBValue.INT 13)).2).write
    "d1" "s2" 1 (IoTDBValue.INT 13)).2

/-- The same writes as `writerOrder1` applied to the `schemaOrder2` writer. -/
def writerOrder2 : TsFileWriter :=
  ((((TsFileWriter.new "f" schemaOrder2).write "d1" "s1" 1 (IoTDBValue.INT 13)).2).write
    "d1" "s2" 1 (IoTDBValue.INT 13)).2

/-- Scenario B writer state (the reference scenario of the regression test
`write_file_test_4`): schema `d1/s1`, after the writes `(1, INT(13))`,
`(10, INT(14))`, `(100, INT(15))`. -/
def writerScenarioB : TsFileWriter :=
  ((((((TsFileWriter.new "data3.tsfile" schemaD1S1).write "d1" "s1" 1
        (IoTDBValue.INT 13)).2).write "d1" "s1" 10 (IoTDBValue.INT 14)).2).write
    "d1" "s1" 100 (IoTDBValue.INT 15)).2

/-- The byte vector `close` emits, `[]` when `_flush` panics. -/
def flushBytes (w : TsFileWriter) : List Nat :=
  match w.flushFile WriteWrapper.new with
  | Except.error _ => []
  | Except.ok (_, f) => f.writer

/-- The sink position after `close`, 0 when `_flush` panics. -/
def flushPosition (w : TsFileWriter) : Nat :=
  match w.flushFile WriteWrapper.new with
  | Except.error _ => 0
  | Except.ok (_, f) => f.position

/-- Whether `_flush` completed without panicking. -/
def flushOk (w : TsFileWriter) : Bool :=
  match w.flushFile WriteWrapper.new with
  | Except.error _ => false
  | Except.ok _ => true

/-- A chunk writer for `s2` after one successful write `(1, INT(13))`. -/
def cwS2Written : ChunkWriter :=
  ((ChunkWriter.new "s2" .INT32 .UNCOMPRESSED .PLAIN).write 1 (IoTDBValue.INT 13)).2

/-- A group writer for `d1` holding the written `s1` and `s2` chunks in
iteration order `s1, s2`. -/
def gwExample : GroupWriter :=
  ⟨"d1", ⟨[("s1", msS1), ("s2", msS2)]⟩, [("s1", cwWritten), ("s2", cwS2Written)]⟩

/-- A concrete chunk metadata record (measurement `s1`, chunk header at
offset 11, as in the reference file). -/
def cmExample : ChunkMetadata := ⟨"s1", .INT32, 0, 11, StatisticsStruct.new⟩

/-- The keys under which `flush_metadata_index` files the timeseries
metadata records synthesized from the given chunk-group metadata. -/
def flushGroupKeys (groups : List ChunkGroupMetadata) : List String :=
  match groupTimeseriesMetadata [] (buildChunkMetadataMap groups) with
  | Except.error _ => []
  | Except.ok m => m.map Prod.fst

/-- The canonical 202-byte regression vector asserted by the in-src test
`write_file_test_4` (lib.rs 1244-1255); the test also asserts
`buffer_writer.position == 202` (lib.rs 1289). -/
def referenceFileBytes : List Nat :=
  [84, 115, 70, 105, 108, 101, 3, 0, 4, 100, 49, 5, 4, 115, 49, 32, 1, 0, 0,
   30, 30, 26, 0, 0, 0, 2, 0, 0, 0, 7, 0, 0, 0, 0, 0, 0, 0, 9, 0, 0, 0, 0,
   0, 0, 0, 1, 1, 68, 26, 28, 30, 2, 0, 4, 115, 49, 1, 8, 3, 0, 0, 0, 0, 0,
   0, 0, 1, 0, 0, 0, 0, 0, 0, 0, 100, 0, 0, 0, 13, 0, 0, 0, 15, 0, 0, 0, 13,
   0, 0, 0, 15, 0, 0, 0, 0, 0, 0, 0, 42, 0, 0, 0, 0, 0, 0, 0, 11, 1, 4, 115,
   49, 0, 0, 0, 0, 0, 0, 0, 52, 0, 0, 0, 0, 0, 0, 0, 107, 3, 1, 4, 100, 49,
   0, 0, 0, 0, 0, 0, 0, 107, 0, 0, 0, 0, 0, 0, 0, 128, 1, 0, 0, 0, 0, 0, 0,
   0, 51, 31, 4, 0, 0, 0, 0, 0, 0, 0, 0, 0, 0, 0, 0, 0, 1, 0, 1, 0, 0, 8, 0,
   0, 0, 0, 0, 0, 0, 0, 0, 0, 2, 128, 2, 5, 0, 0, 0, 64, 84, 115, 70, 105,
   108, 101]

/-- The bytes a chunk writer contributes when serialized (empty for the
pageless case, in which the source panics before writing). -/
def chunkBytesOf (cw : ChunkWriter) : List Nat :=
  match cw.currentPageWriter with
  | some pw => chunkBytes cw pw
  | none => []

/-- Apply a list of `(timestamp, value)` samples through
`ChunkWriter::write`, keeping the state after each call (results are
returned to the caller and do not interrupt the sequence). -/
def applyChunkWrites (cw : ChunkWriter) : List (Int × IoTDBValue) → ChunkWriter
  | [] => cw
  | (ts, v) :: rest => applyChunkWrites (cw.write ts v).2 rest

/-! ## Helper lemmas -/

theorem beBytes_length (w n : Nat) : (beBytes w n).length = w := by
  induction w generalizing n with
  | zero => rfl
  | succ w ih => simp [beBytes, ih]

theorem WriteWrapper.write_write (f : WriteWrapper) (a b : List Nat) :
    (f.write a).write b = f.write (a ++ b) := by
  simp [WriteWrapper.write, Nat.add_assoc]

theorem WriteWrapper.write_nil (f : WriteWrapper) : f.write [] = f := by
  simp [WriteWrapper.write]

theorem WriteWrapper.position_write (f : WriteWrapper) (a : List Nat)
    (h : f.position = f.writer.length) :
    (f.write a).position = (f.write a).writer.length := by
  simp [WriteWrapper.write, h]

theorem writeVarU32Go_congr :
    ∀ f1 f2 n, n ≤ f1 → n ≤ f2 → writeVarU32Go f1 n = writeVarU32Go f2 n := by
  intro f1
  induction f1 with
  | zero =>
    intro f2 n h1 _
    have : n = 0 := by omega
    subst this
    cases f2 <;> simp [writeVarU32Go]
  | succ f1 ih =>
    intro f2 n h1 h2
    cases f2 with
    | zero =>
      have : n = 0 := by omega
      subst this
      simp [writeVarU32Go]
    | succ f2 =>
      simp only [writeVarU32Go]
      split
      · rfl
      · next h =>
        rw [ih f2 (n / 128) (by omega) (by omega)]

/-- The fuel-free recurrence of `writeVarU32` (the loop of spec §4.2). -/
theorem writeVarU32_eq (n : Nat) :
    writeVarU32 n = if n < 128 then [n] else (n % 128 + 128) :: writeVarU32 (n / 128) := by
  cases n with
  | zero => simp [writeVarU32, writeVarU32Go]
  | succ m =>
    show writeVarU32Go (m + 1) (m + 1) = _
    simp only [writeVarU32Go]
    split
    · rfl
    · next h =>
      have hd : (m + 1) / 128 < m + 1 := Nat.div_lt_self (by omega) (by omega)
      rw [writeVarU32Go_congr m ((m + 1) / 128) ((m + 1) / 128) (by omega) (by omega)]
      rfl

theorem readVarU32_writeVarU32_append (n : Nat) (rest : List Nat) :
    readVarU32 (writeVarU32 n ++ rest) = n := by
  induction n using Nat.strong_induction_on with
  | _ n ih =>
    rw [writeVarU32_eq]
    split
    · next h => simp [readVarU32, h]
    · next h =>
      have h2 : ¬ n % 128 + 128 < 128 := by omega
      rw [List.cons_append, readVarU32, if_neg h2,
        ih (n / 128) (Nat.div_lt_self (by omega) (by omega))]
      omega

theorem writeVarU32_length_le (k : Nat) :
    ∀ n, n < 128 ^ (k + 1) → (writeVarU32 n).length ≤ k + 1 := by
  induction k with
  | zero =>
    intro n hn
    rw [writeVarU32_eq, if_pos (by simpa using hn)]
    simp
  | succ k ih =>
    intro n hn
    rw [writeVarU32_eq]
    split
    · simp
    · next h =>
      have : n / 128 < 128 ^ (k + 1) := by
        rw [Nat.div_lt_iff_lt_mul (by omega)]
        calc n < 128 ^ (k + 1 + 1) := hn
        _ = 128 ^ (k + 1) * 128 := by ring
      simpa using Nat.succ_le_succ (ih (n / 128) this)

theorem writeVarU32_length_pos (n : Nat) : 1 ≤ (writeVarU32 n).length := by
  rw [writeVarU32_eq]
  split <;> simp

theorem foldl_write_position (bufs : List (List Nat)) (f : WriteWrapper)
    (h : f.position = f.writer.length) :
    (bufs.foldl WriteWrapper.write f).position =
      (bufs.foldl WriteWrapper.write f).writer.length := by
  induction bufs generalizing f with
  | nil => exact h
  | cons b rest ih => exact ih _ (WriteWrapper.position_write f b h)

/-! ## The claims -/

/-- **C1** (counterexample).  The claim states the reference scenario's
emitted byte vector has 203 bytes; running the embedded writer's `close` on
that scenario emits 202 bytes, not 203 — in agreement with the canonical
regression vector of the in-src test `write_file_test_4` (202 entries, and
the test asserts sink position 202). -/
theorem reference_vector_is_202_not_203 :
    (flushBytes writerScenarioB).length = 202 ∧
      ¬ (flushBytes writerScenarioB).length = 203 ∧
      referenceFileBytes.length = 202 := by
  decide

/-- **C1** (amended).  `close` on the embedded reference scenario emits
exactly the canonical 202-byte vector of the regression test, with the sink
position after close equal to its length, 202; and for the positioned sink
in general, after any sequence of writes starting from a fresh sink the
position equals the length of the emitted byte vector. -/
theorem position_equals_emitted_length :
    flushBytes writerScenarioB = referenceFileBytes ∧
      flushPosition writerScenarioB = (flushBytes writerScenarioB).length ∧
      flushPosition writerScenarioB = 202 ∧
      (∀ bufs : List (List Nat),
        (bufs.foldl WriteWrapper.write WriteWrapper.new).position =
          (bufs.foldl WriteWrapper.write WriteWrapper.new).writer.length) :=
  ⟨by decide, by decide, by decide,
   fun bufs => foldl_write_position bufs WriteWrapper.new rfl⟩

/-- **C2** (counterexample).  The measurement-id `"s1"` is emitted by
`write_str` with length prefix 4, while the UTF-8 byte length of `"s1"` is
2: the prefix does not equal the byte length of the bytes that follow. -/
theorem measurement_id_prefix_is_not_byte_length :
    readVarU32 (strSer "s1") = 4 ∧ (strSer "s1").drop 1 = strBytes "s1" ∧
      (strBytes "s1").length = 2 ∧ (4 : Nat) ≠ 2 := by
  refine ⟨?_, by decide, by decide, by decide⟩
  have := readVarU32_writeVarU32_append 4 (strBytes "s1")
  simpa [strSer] using by decide

/-- **C2** (amended).  `varuint(length) | bytes` framings produced through
`write_var_u32` decode to the exact length written (so the page framings
recover the byte count that was prefixed), but every string field goes
through `write_str`, whose single prefix byte is the string's UTF-8 byte
length *plus two* (wrapping `u8` arithmetic), not the byte length itself. -/
theorem framing_prefix_decodes :
    (∀ (n : Nat) (rest : List Nat), readVarU32 (writeVarU32 n ++ rest) = n) ∧
    (∀ (s : String) (rest : List Nat), (strBytes s).length + 2 < 128 →
        readVarU32 (strSer s ++ rest) = (strBytes s).length + 2 ∧
          (strSer s ++ rest).drop 1 = strBytes s ++ rest) := by
  refine ⟨readVarU32_writeVarU32_append, fun s rest h => ⟨?_, by simp [strSer]⟩⟩
  have hm : (strBytes s).length % 256 = (strBytes s).length := Nat.mod_eq_of_lt (by omega)
  have h2 : ((strBytes s).length % 256 + 2) % 256 = (strBytes s).length + 2 := by
    rw [hm]; exact Nat.mod_eq_of_lt (by omega)
  simp only [strSer, List.cons_append, readVarU32, h2]
  rw [if_pos h]

/-- Witness for `framing_prefix_decodes` at the concrete string `"s1"`. -/
theorem framing_prefix_decodes_witness :
    readVarU32 (strSer "s1" ++ [7]) = (strBytes "s1").length + 2 ∧
      (strSer "s1" ++ [7]).drop 1 = strBytes "s1" ++ [7] :=
  framing_prefix_decodes.2 "s1" [7] (by decide)

/-- **C9** (confirmed, spec-modelled codec).  The varuint codec round-trips
on `[0, 2^32)` with 1 to 5 written bytes, and the three boundary encodings
of the spec hold. -/
theorem varuint_roundtrip_and_boundaries :
    (∀ u : Nat, u < 2 ^ 32 →
        readVarU32 (writeVarU32 u) = u ∧
          1 ≤ (writeVarU32 u).length ∧ (writeVarU32 u).length ≤ 5) ∧
    writeVarU32 128 = [0x80, 0x01] ∧ writeVarU32 13 = [0x0D] ∧
      writeVarU32 123456789 = [0x95, 0x9A, 0xEF, 0x3A] := by
  refine ⟨fun u hu => ⟨?_, writeVarU32_length_pos u, ?_⟩, by decide, by decide, by decide⟩
  · simpa using readVarU32_writeVarU32_append u []
  · exact writeVarU32_length_le 4 u (by calc u < 2 ^ 32 := hu
      _ < 128 ^ 5 := by norm_num)

/-- Witness for `varuint_roundtrip_and_boundaries` at `u = 123456789`. -/
theorem varuint_roundtrip_witness :
    readVarU32 (writeVarU32 123456789) = 123456789 ∧
      1 ≤ (writeVarU32 123456789).length ∧ (writeVarU32 123456789).length ≤ 5 :=
  varuint_roundtrip_and_boundaries.1 123456789 (by norm_num)

/-- A write whose value is not an `INT` returns the error before touching
any field of the chunk writer. -/
theorem chunkWrite_mismatch (cw : ChunkWriter) (ts : Int) (v : IoTDBValue)
    (h : ∀ x : Int, v ≠ IoTDBValue.INT x) :
    cw.write ts v = (Except.error "wrong type!", cw) := by
  cases v with
  | INT x => exact absurd rfl (h x)
  | DOUBLE d => rfl
  | FLOAT f => rfl

/-- `ChunkWriter::write` never touches the chunk-header offset. -/
theorem chunkWrite_offset (cw : ChunkWriter) (ts : Int) (v : IoTDBValue) :
    ((cw.write ts v).2).offsetOfChunkHeader = cw.offsetOfChunkHeader := by
  cases v <;> rfl

theorem applyChunkWrites_offset (ops : List (Int × IoTDBValue)) (cw : ChunkWriter) :
    (applyChunkWrites cw ops).offsetOfChunkHeader = cw.offsetOfChunkHeader := by
  induction ops generalizing cw with
  | nil => rfl
  | cons op rest ih =>
    obtain ⟨ts, v⟩ := op
    rw [applyChunkWrites, ih, chunkWrite_offset]

/-- `ChunkWriter::serialize` with a page present: the emitted bytes are
`chunkBytes`, the page writer is replaced by its prepared version, and the
chunk-header offset is recorded as the sink position at entry. -/
theorem chunkSerialize_eq (cw : ChunkWriter) (pw : PageWriter) (file : WriteWrapper)
    (h : cw.currentPageWriter = some pw) :
    cw.serialize file =
      Except.ok (file.write (chunkBytes cw pw),
        { cw with currentPageWriter := some pw.prepareBuffer
                  offsetOfChunkHeader := some file.position }) := by
  simp only [ChunkWriter.serialize, h, chunkBytes, pageRegionBytes,
    WriteWrapper.write_write, List.append_assoc]

/-- The byte a chunk leaves at the position recorded in its metadata is the
marker `0x05`, and stays `0x05` under any later appends. -/
theorem write_chunkBytes_marker (file : WriteWrapper) (cw : ChunkWriter)
    (pw : PageWriter) (rest : List Nat) (hpos : file.position = file.writer.length) :
    ((file.write (chunkBytes cw pw)).writer ++ rest)[file.position]? = some 5 := by
  show ((file.writer ++ chunkBytes cw pw) ++ rest)[file.position]? = some 5
  rw [List.append_assoc, hpos, List.getElem?_append_right (Nat.le_refl _)]
  simp [chunkBytes]

/-- **C6** (confirmed).  A write whose value variant does not match the
declared data type returns `Err("wrong type!")` and leaves the chunk writer
unchanged: same statistics, same (absent or present) page. -/
theorem type_mismatch_leaves_writer_unchanged (cw : ChunkWriter) (ts : Int)
    (v : IoTDBValue) (h : ∀ x : Int, v ≠ IoTDBValue.INT x) :
    cw.write ts v = (Except.error "wrong type!", cw) ∧
      ((cw.write ts v).2).statistics = cw.statistics ∧
      ((cw.write ts v).2).currentPageWriter = cw.currentPageWriter := by
  have he := chunkWrite_mismatch cw ts v h
  exact ⟨he, by rw [he], by rw [he]⟩

/-- Witness for `type_mismatch_leaves_writer_unchanged`: writing
`FLOAT(1.0)` to the fresh INT32 chunk writer for `s1`. -/
theorem type_mismatch_witness :
    (ChunkWriter.new "s1" .INT32 .UNCOMPRESSED .PLAIN).write 0 (IoTDBValue.FLOAT 1.0) =
        (Except.error "wrong type!", ChunkWriter.new "s1" .INT32 .UNCOMPRESSED .PLAIN) ∧
      (((ChunkWriter.new "s1" .INT32 .UNCOMPRESSED .PLAIN).write 0
          (IoTDBValue.FLOAT 1.0)).2).statistics =
        (ChunkWriter.new "s1" .INT32 .UNCOMPRESSED .PLAIN).statistics ∧
      (((ChunkWriter.new "s1" .INT32 .UNCOMPRESSED .PLAIN).write 0
          (IoTDBValue.FLOAT 1.0)).2).currentPageWriter =
        (ChunkWriter.new "s1" .INT32 .UNCOMPRESSED .PLAIN).currentPageWriter :=
  type_mismatch_leaves_writer_unchanged _ 0 (IoTDBValue.FLOAT 1.0)
    (fun x hx => IoTDBValue.noConfusion hx)

/-- **C10** (confirmed).  `get_metadata` on a chunk writer that has not been
serialized panics (modelled `none`) — no sequence of writes from a fresh
chunk writer defines the offset — and after a successful `serialize` the
metadata exists. -/
theorem metadata_undefined_before_serialize :
    (∀ (m : String) (dt : TSDataType) (c : CompressionType) (e : TSEncoding)
        (ops : List (Int × IoTDBValue)),
        (applyChunkWrites (ChunkWriter.new m dt c e) ops).getMetadata = none) ∧
    (∀ (cw : ChunkWriter) (pw : PageWriter) (file : WriteWrapper),
        cw.currentPageWriter = some pw →
        ∃ file' cw' md, cw.serialize file = Except.ok (file', cw') ∧
          cw'.getMetadata = some md) := by
  constructor
  · intro m dt c e ops
    have h := applyChunkWrites_offset ops (ChunkWriter.new m dt c e)
    simp only [ChunkWriter.getMetadata, h]
    rfl
  · intro cw pw file h
    exact ⟨_, _, _, chunkSerialize_eq cw pw file h, rfl⟩

/-- Witness for `metadata_undefined_before_serialize`: metadata is undefined
after the successful write `(1, INT(13))`, and defined after serializing
that chunk to a fresh sink. -/
theorem metadata_undefined_witness :
    (applyChunkWrites (ChunkWriter.new "s1" .INT32 .UNCOMPRESSED .PLAIN)
        [(1, IoTDBValue.INT 13)]).getMetadata = none ∧
      ∃ file' cw' md, cwWritten.serialize WriteWrapper.new = Except.ok (file', cw') ∧
        cw'.getMetadata = some md :=
  ⟨metadata_undefined_before_serialize.1 "s1" .INT32 .UNCOMPRESSED .PLAIN
      [(1, IoTDBValue.INT 13)],
   metadata_undefined_before_serialize.2 cwWritten pwWritten WriteWrapper.new rfl⟩

/-- **C3** (counterexample).  Scenario E: after the failed
`write("d1","s1", 0, FLOAT(1.0))`, `close` does not produce a file — the
chunk writer has no page, and `_flush` propagates the source's panic
`"Unable to flush without page writer!"` instead of skipping the chunk. -/
theorem flush_after_type_mismatch_panics :
    writerScenarioE.flushFile WriteWrapper.new =
      Except.error "Unable to flush without page writer!" := by
  rfl

/-- **C3** (amended).  Serializing a chunk writer on which no successful
write occurred panics with `"Unable to flush without page writer!"` (it does
write nothing to the sink, but emission is not skipped: the error aborts
`close`), and a type-mismatched write indeed leaves the page absent. -/
theorem serialize_without_page_panics (cw : ChunkWriter) (file : WriteWrapper)
    (h : cw.currentPageWriter = none) :
    cw.serialize file = Except.error "Unable to flush without page writer!" ∧
      ∀ (ts : Int) (v : IoTDBValue), (∀ x : Int, v ≠ IoTDBValue.INT x) →
        ((cw.write ts v).2).currentPageWriter = none := by
  constructor
  · simp only [ChunkWriter.serialize, h]
  · intro ts v hv
    rw [chunkWrite_mismatch cw ts v hv]
    exact h

/-- Witness for `serialize_without_page_panics` at the fresh `s1` chunk
writer and a fresh sink. -/
theorem serialize_without_page_witness :
    (ChunkWriter.new "s1" .INT32 .UNCOMPRESSED .PLAIN).serialize WriteWrapper.new =
        Except.error "Unable to flush without page writer!" ∧
      ∀ (ts : Int) (v : IoTDBValue), (∀ x : Int, v ≠ IoTDBValue.INT x) →
        (((ChunkWriter.new "s1" .INT32 .UNCOMPRESSED .PLAIN).write ts v).2).currentPageWriter =
          none :=
  serialize_without_page_panics (ChunkWriter.new "s1" .INT32 .UNCOMPRESSED .PLAIN)
    WriteWrapper.new rfl

/-- **C5** (confirmed).  For a chunk with a page, serialized on a sink whose
position equals its emitted length, the offset recorded in the chunk's
metadata is the sink position at entry, and the byte at that position in the
final file (the serialized sink extended by any later bytes) is the `0x05`
marker. -/
theorem chunk_offset_is_marker_position (cw : ChunkWriter) (pw : PageWriter)
    (file : WriteWrapper) (rest : List Nat) (hpw : cw.currentPageWriter = some pw)
    (hpos : file.position = file.writer.length) :
    ∃ file' cw' md,
      cw.serialize file = Except.ok (file', cw') ∧
        cw'.getMetadata = some md ∧
        md.offsetOfChunkHeader = i64ofU64 file.position ∧
        (file'.writer ++ rest)[file.position]? = some 5 := by
  exact ⟨_, _, _, chunkSerialize_eq cw pw file hpw, rfl, rfl,
    write_chunkBytes_marker file cw pw rest hpos⟩

/-- Witness for `chunk_offset_is_marker_position`: the written `s1` chunk
serialized on a sink already holding three bytes, extended by one byte. -/
theorem chunk_offset_witness :
    ∃ file' cw' md,
      cwWritten.serialize (WriteWrapper.new.write [0, 0, 0]) = Except.ok (file', cw') ∧
        cw'.getMetadata = some md ∧
        md.offsetOfChunkHeader = i64ofU64 (WriteWrapper.new.write [0, 0, 0]).position ∧
        (file'.writer ++ [7])[(WriteWrapper.new.write [0, 0, 0]).position]? = some 5 :=
  chunk_offset_is_marker_position cwWritten pwWritten (WriteWrapper.new.write [0, 0, 0])
    [7] rfl rfl

theorem serializeChunkList_eq (l : List (String × ChunkWriter)) (file : WriteWrapper)
    (h : ∀ p ∈ l, (ChunkWriter.currentPageWriter p.2).isSome = true) :
    ∃ l', serializeChunkList l file =
      Except.ok (file.write ((l.map (fun p => chunkBytesOf p.2)).flatten), l') := by
  induction l generalizing file with
  | nil => exact ⟨[], by simp [serializeChunkList, WriteWrapper.write_nil]⟩
  | cons p rest ih =>
    obtain ⟨k, cw⟩ := p
    have hp := h (k, cw) (List.mem_cons_self _ _)
    obtain ⟨pw, hpw⟩ := Option.isSome_iff_exists.1 hp
    replace hpw : cw.currentPageWriter = some pw := hpw
    obtain ⟨l', hl'⟩ :=
      ih (file.write (chunkBytes cw pw)) (fun q hq => h q (List.mem_cons_of_mem _ hq))
    refine ⟨(k, { cw with currentPageWriter := some pw.prepareBuffer
                          offsetOfChunkHeader := some file.position }) :: l', ?_⟩
    rw [serializeChunkList, chunkSerialize_eq cw pw file hpw]
    simp [hl', chunkBytesOf, hpw, WriteWrapper.write_write]

/-- **C7** (counterexample).  The same logical inputs — device `d1` with
measurements `{s1, s2}`, the same three samples — serialized under two
iteration orders of the per-device measurement `HashMap` (both orders are
possible across two runs, since `HashMap` iteration order is unspecified)
produce different byte vectors, both from completed `close` calls: the
output is not byte-exact reproducible and the chunks are not emitted in a
schema-determined order. -/
theorem output_depends_on_iteration_order :
    flushBytes writerOrder1 ≠ flushBytes writerOrder2 ∧
      flushOk writerOrder1 = true ∧ flushOk writerOrder2 = true :=
  ⟨by decide, by decide, by decide⟩

/-- **C7** (amended).  The byte output of `close` is a function of the
writer state *and* the hash-map iteration orders: chunks within a chunk
group are emitted exactly in the iteration order of the per-device
measurement map (an order the source does not tie to the schema's insertion
order). -/
theorem chunks_emitted_in_iteration_order (gw : GroupWriter) (file : WriteWrapper)
    (h : ∀ p ∈ gw.chunkWriters, (ChunkWriter.currentPageWriter p.2).isSome = true) :
    ∃ cws, gw.serialize file =
      Except.ok (file.write ([0] ++ strSer gw.path ++
        (gw.chunkWriters.map (fun p => chunkBytesOf p.2)).flatten),
        { gw with chunkWriters := cws }) := by
  obtain ⟨l', hl'⟩ :=
    serializeChunkList_eq gw.chunkWriters ((file.write [0]).write (strSer gw.path)) h
  rw [WriteWrapper.write_write] at hl'
  refine ⟨l', ?_⟩
  simp only [GroupWriter.serialize, hl', WriteWrapper.write_write, List.append_assoc]

/-- Witness for `chunks_emitted_in_iteration_order` at the two-chunk group
writer `gwExample` on a fresh sink. -/
theorem chunks_order_witness :
    ∃ cws, gwExample.serialize WriteWrapper.new =
      Except.ok (WriteWrapper.new.write ([0] ++ strSer gwExample.path ++
        (gwExample.chunkWriters.map (fun p => chunkBytesOf p.2)).flatten),
        { gwExample with chunkWriters := cws }) :=
  chunks_emitted_in_iteration_order gwExample WriteWrapper.new (by decide)

theorem map_fst_updateAssoc {α : Type} (l : List (String × α)) (k : String) (v : α) :
    (updateAssoc l k v).map Prod.fst = l.map Prod.fst := by
  induction l with
  | nil => rfl
  | cons p rest ih =>
    obtain ⟨a, b⟩ := p
    by_cases hak : a = k
    · subst hak
      simp [updateAssoc]
    · simp [updateAssoc, hak, ih]

theorem containsKey_iff {α : Type} (l : List (String × α)) (k : String) :
    containsKey l k = true ↔ k ∈ l.map Prod.fst := by
  induction l with
  | nil => simp [containsKey, lookupAssoc]
  | cons p rest ih =>
    obtain ⟨a, b⟩ := p
    by_cases hak : a = k
    · subst hak
      simp [containsKey, lookupAssoc]
    · have hka : ¬ k = a := fun hh => hak hh.symm
      simp only [containsKey, lookupAssoc, if_neg hak, List.map_cons, List.mem_cons]
      rw [show (lookupAssoc rest k).isSome = containsKey rest k from rfl, ih]
      simp [hka]

theorem mem_keys_insertChunkMetadata (map : List (String × List ChunkMetadata))
    (p q : String) (cm : ChunkMetadata) :
    q ∈ (insertChunkMetadata map p cm).map Prod.fst ↔
      q ∈ map.map Prod.fst ∨ q = p := by
  unfold insertChunkMetadata
  cases hcp : containsKey map p with
  | true =>
    simp only [hcp, if_true, map_fst_updateAssoc]
    constructor
    · exact Or.inl
    · rintro (hq | rfl)
      · exact hq
      · exact (containsKey_iff map q).1 hcp
  | false =>
    simp only [hcp, if_false, Bool.false_eq_true, map_fst_updateAssoc]
    simp

theorem mem_keys_addGroup (cms : List ChunkMetadata)
    (map : List (String × List ChunkMetadata)) (dev q : String) :
    q ∈ (addGroupChunkMetadata map dev cms).map Prod.fst ↔
      q ∈ map.map Prod.fst ∨
        ∃ cm ∈ cms, q = dev ++ "." ++ cm.measurementId := by
  induction cms generalizing map with
  | nil => simp [addGroupChunkMetadata]
  | cons cm rest ih =>
    rw [addGroupChunkMetadata, ih, mem_keys_insertChunkMetadata]
    simp only [List.mem_cons]
    constructor
    · rintro ((hq | rfl) | ⟨c, hc, rfl⟩)
      · exact Or.inl hq
      · exact Or.inr ⟨cm, Or.inl rfl, rfl⟩
      · exact Or.inr ⟨c, Or.inr hc, rfl⟩
    · rintro (hq | ⟨c, (rfl | hc), rfl⟩)
      · exact Or.inl (Or.inl hq)
      · exact Or.inl (Or.inr rfl)
      · exact Or.inr ⟨c, hc, rfl⟩

theorem mem_keys_buildFrom (groups : List ChunkGroupMetadata)
    (map : List (String × List ChunkMetadata)) (q : String) :
    q ∈ (buildChunkMetadataMapFrom map groups).map Prod.fst ↔
      q ∈ map.map Prod.fst ∨
        ∃ g ∈ groups, ∃ cm ∈ g.chunkMetadata,
          q = g.deviceId ++ "." ++ cm.measurementId := by
  induction groups generalizing map with
  | nil => simp [buildChunkMetadataMapFrom]
  | cons g rest ih =>
    rw [buildChunkMetadataMapFrom, ih, mem_keys_addGroup]
    simp only [List.mem_cons]
    constructor
    · rintro ((hq | ⟨cm, hcm, rfl⟩) | ⟨g', hg', cm, hcm, rfl⟩)
      · exact Or.inl hq
      · exact Or.inr ⟨g, Or.inl rfl, cm, hcm, rfl⟩
      · exact Or.inr ⟨g', Or.inr hg', cm, hcm, rfl⟩
    · rintro (hq | ⟨g', (rfl | hg'), cm, hcm, rfl⟩)
      · exact Or.inl (Or.inl hq)
      · exact Or.inl (Or.inr ⟨cm, hcm, rfl⟩)
      · exact Or.inr ⟨g', hg', cm, hcm, rfl⟩

/-- **C4** (counterexample).  The serialized bloom filter is the same fixed
35-byte constant whether it is built from the four paths of the two-device
scenario or from no paths at all: the on-disk filter does not depend on the
timeseries paths, and the source's `BloomFilter` offers no membership
query. -/
theorem bloom_serialization_ignores_paths :
    (BloomFilter.build ["d1.s1", "d1.s2", "d2.s1", "d2.s2"]).serializeBytes =
        (BloomFilter.build []).serializeBytes ∧
      BloomFilter.build ["d1.s1", "d1.s2", "d2.s1", "d2.s2"] = BloomFilter.build [] :=
  ⟨rfl, rfl⟩

/-- **C4** (amended).  At close the writer does collect exactly the
`device.measurement` path strings (the keys of the chunk-metadata map) and
passes them to `BloomFilter::build`, but `build` discards them and
serialization always emits the fixed 35-byte constant `bloomFakeBytes`. -/
theorem bloom_paths_collected_but_ignored :
    (∀ (groups : List ChunkGroupMetadata) (p : String),
        p ∈ (buildChunkMetadataMap groups).map Prod.fst ↔
          ∃ g ∈ groups, ∃ cm ∈ g.chunkMetadata,
            p = g.deviceId ++ "." ++ cm.measurementId) ∧
    (∀ paths : List String, (BloomFilter.build paths).serializeBytes = bloomFakeBytes) := by
  refine ⟨fun groups p => ?_, fun paths => rfl⟩
  simpa [buildChunkMetadataMap] using mem_keys_buildFrom groups [] p

/-- **C8** (code evaluated at the failing input).  A timeseries of device
`"a.b"` and measurement `"s1"` is filed by `flush_metadata_index` under the
key `"a"` — the first `'.'`-separated component of the combined path — and
not under its device path `"a.b"`; for a dot-free device like `"d1"` the
key is the device path. -/
theorem dotted_device_filed_under_first_component :
    flushGroupKeys [⟨"a.b", [cmExample]⟩] = ["a"] ∧
      ("a" : String) ≠ "a.b" ∧
      flushGroupKeys [⟨"d1", [cmExample]⟩] = ["d1"] :=
  ⟨by decide, by decide, by decide⟩

end TsFile
